import Mathlib

/-!
Shallow embedding of `lambda-http-local` (src/src/lib.rs), a dispatch shim
that runs a user HTTP handler either inside AWS Lambda or as a local
development HTTP server.

The embedding models:
- the `http` crate's `Request`/`Response` with parts (method, URI, headers,
  extensions) and a polymorphic body;
- `hyper::Body` as a stream of byte chunks, with `concat2` concatenating it;
- `lambda_http::Body` as an owned byte buffer;
- the process environment as an association list, with `var_os` lookup;
- the `local` cargo feature as an explicit boolean parameter (the crate
  compiles the local-server branch only when the feature is on);
- the observable outcome of `run` (which mode it dispatches to, which
  address it binds, what it writes on the diagnostic stream, or the panic
  message) as an inductive `RunOutcome`, with the result of address
  resolution (`ToSocketAddrs::to_socket_addrs`) and the delegate server's
  terminal error supplied as inputs, since both are produced by external
  libraries.
-/

namespace LambdaHttpLocal

/-- A byte sequence (one `Nat` per octet). -/
abbrev Bytes := List Nat

/-- The Lambda invocation context delivered by the runtime client
(`lambda_runtime_core::Context`): per-event metadata, modelled abstractly
by its identifying fields. -/
structure Context where
  request_id : String
  deadline : Nat
deriving DecidableEq

/-- The typed extension map of an `http` request (`parts.extensions`).
The only type this crate ever inserts is `Context`, so the map is modelled
as an optional `Context` slot plus an opaque list for every other entry. -/
structure Extensions where
  context : Option Context
  others : List String
deriving DecidableEq

/-- `Extensions::insert` for the `Context` type: replaces the `Context`
slot, leaving entries of other types untouched. -/
def Extensions.insert (e : Extensions) (c : Context) : Extensions :=
  { e with context := some c }

/-- The structural parts of an `http::Request`: method, URI, headers and
the extension map. -/
structure Parts where
  method : String
  uri : String
  headers : List (String × String)
  extensions : Extensions
deriving DecidableEq

/-- `http::Request<B>`: parts plus a body of type `B`. -/
structure Request (B : Type) where
  parts : Parts
  body : B
deriving DecidableEq

/-- `http::Response<B>`: status, headers and a body of type `B`. -/
structure Response (B : Type) where
  status : Nat
  headers : List (String × String)
  body : B
deriving DecidableEq

/-- `Request::into_parts`. -/
def Request.into_parts {B : Type} (r : Request B) : Parts × B :=
  (r.parts, r.body)

/-- `Request::from_parts`. -/
def Request.from_parts {B : Type} (p : Parts) (b : B) : Request B :=
  ⟨p, b⟩

/-- `Response::map`: transforms the body, keeping status and headers. -/
def Response.map {B C : Type} (f : B → C) (r : Response B) : Response C :=
  ⟨r.status, r.headers, f r.body⟩

/-- The user handler contract: `Fn(Request<&[u8]>) -> Response<Vec<u8>>`. -/
abbrev Handler := Request Bytes → Response Bytes

/-- `hyper::Body` on the inbound side: a stream of byte chunks. -/
abbrev HyperBody := List Bytes

/-- `Stream::concat2` on a `hyper::Body`: concatenates every chunk of the
stream into one contiguous buffer. -/
def concat2 (b : HyperBody) : Bytes :=
  b.flatten

/-- `hyper::Body::from(Vec<u8>)`: an outbound body made of the one given
buffer. -/
def hyperBody_from (b : Bytes) : HyperBody :=
  [b]

/-- `lambda_http::Body`: an owned byte buffer delivered by or returned to
the Lambda runtime client. -/
structure LambdaBody where
  bytes : Bytes
deriving DecidableEq

/-- `lambda_http::Body::as_ref`: view the body as a byte slice. -/
def LambdaBody.as_ref (b : LambdaBody) : Bytes :=
  b.bytes

/-- `lambda_http::Body::from(Vec<u8>)`: wrap a byte buffer as an outbound
Lambda body. This conversion is a `From` impl and cannot fail. -/
def LambdaBody.from_vec (b : Bytes) : LambdaBody :=
  ⟨b⟩

/-- The process environment: an association list of variable names to
values. -/
abbrev Env := List (String × String)

/-- `std::env::var_os(name)`: the value of the first binding of `name`, if
any. -/
def var_os (env : Env) (name : String) : Option String :=
  (env.find? (fun p => p.1 == name)).map (fun p => p.2)

/-- `is_lambda` (lib.rs:94-104). With the `local` feature on it returns
whether `AWS_LAMBDA_RUNTIME_API` is set, looking only at presence, never at
the value; with the feature off it returns `true` unconditionally. A pure
function of the environment: no side effects, no failure modes. -/
def is_lambda (local_feature : Bool) (env : Env) : Bool :=
  if local_feature then (var_os env "AWS_LAMBDA_RUNTIME_API").isSome
  else true

/-- The per-request service closure of the local server mode
(lib.rs:72-78): split the request into parts and streaming body, buffer the
whole body with `concat2`, rebuild the request from the same parts and the
buffered bytes, invoke the handler, and convert the returned body into a
`hyper::Body`. -/
def local_service (handler : Handler) (request : Request HyperBody) :
    Response HyperBody :=
  let pb := request.into_parts
  let chunk := concat2 pb.2
  Response.map hyperBody_from (handler (Request.from_parts pb.1 chunk))

/-- The request the handler sees in local-server mode: the original parts
with the body buffered by `concat2`. Derived from `local_service`; the
characterisation is proved below. -/
def local_visible_request (request : Request HyperBody) : Request Bytes :=
  ⟨request.parts, concat2 request.body⟩

/-- The per-event closure registered with `lambda_http::lambda!`
(lib.rs:110-114): split the event request into parts and body, insert the
invocation context into the extensions, rebuild the request with the body
viewed as bytes, invoke the handler, convert the returned body with
`lambda_http::Body::from`, and wrap the response in `Ok`. -/
def lambda_handler (handler : Handler) (request : Request LambdaBody)
    (context : Context) : Except String (Response LambdaBody) :=
  let pb := request.into_parts
  let parts := { pb.1 with extensions := pb.1.extensions.insert context }
  Except.ok
    (Response.map LambdaBody.from_vec
      (handler (Request.from_parts parts pb.2.as_ref)))

/-- The request the handler sees in Lambda mode: the original parts with
the context inserted into the extensions, and the body viewed as bytes.
Derived from `lambda_handler`; the characterisation is proved below. -/
def lambda_visible_request (request : Request LambdaBody)
    (context : Context) : Request Bytes :=
  ⟨{ request.parts with extensions := request.parts.extensions.insert context },
    request.body.as_ref⟩

/-- The observable outcome of `run`: dispatch to the Lambda runtime loop,
start the local server on a bound address while writing the given lines to
the diagnostic stream (stderr), or panic with a message. -/
inductive RunOutcome where
  | lambdaMode : RunOutcome
  | localMode (addr : String) (diagnostics : List String) : RunOutcome
  | panicked (msg : String) : RunOutcome
deriving DecidableEq

/-- The lines `run` writes to the diagnostic stream (stderr) in local
server mode: the single startup line `Listening on http://<address>`
(lib.rs:81), followed by `Hyper error: <e>` if the delegate server ends
with an error `e` (lib.rs:83). -/
def local_diagnostics (addr : String) (server_error : Option String) :
    List String :=
  ("Listening on http://" ++ addr) ::
    (match server_error with
     | some e => ["Hyper error: " ++ e]
     | none => [])

/-- `run` (lib.rs:49-92). `resolved` is the result of
`listen_addr.to_socket_addrs()` (an error, or the list of resolved
addresses); `server_error` is the terminal error of the delegate hyper
server, if it failed. With the `local` feature on: consult `is_lambda`; if
true, dispatch to the Lambda adapter; otherwise take the first resolved
address (panicking via `expect` on resolution failure or an empty result),
print the startup line to stderr, and run the server, printing any server
error to stderr. With the feature off: dispatch to the Lambda adapter
unconditionally, `listen_addr` unused. -/
def run (local_feature : Bool) (env : Env) (handler : Handler)
    (resolved : Except String (List String)) (server_error : Option String) :
    RunOutcome :=
  if local_feature then
    if is_lambda local_feature env then RunOutcome.lambdaMode
    else
      match resolved with
      | Except.error _ =>
          RunOutcome.panicked "listen_addr.to_socket_addrs() failed"
      | Except.ok [] =>
          RunOutcome.panicked
            "listen_addr.to_socket_addrs() resolved to no addresses"
      | Except.ok (addr :: _) =>
          RunOutcome.localMode addr (local_diagnostics addr server_error)
  else RunOutcome.lambdaMode

/-- C1: with the (default) `local` feature, `run` consults the environment
detector: if `AWS_LAMBDA_RUNTIME_API` is present it takes the Lambda
adapter path; if it is absent it does not select the Lambda path and, on a
resolvable address, takes the local HTTP server path. -/
theorem run_consults_detector (env : Env) (handler : Handler)
    (resolved : Except String (List String)) (server_error : Option String) :
    ((var_os env "AWS_LAMBDA_RUNTIME_API").isSome = true →
      run true env handler resolved server_error = RunOutcome.lambdaMode) ∧
    ((var_os env "AWS_LAMBDA_RUNTIME_API").isSome = false →
      run true env handler resolved server_error ≠ RunOutcome.lambdaMode ∧
      ∀ addr rest, resolved = Except.ok (addr :: rest) →
        ∃ d, run true env handler resolved server_error =
          RunOutcome.localMode addr d) := by
  constructor
  · intro h
    simp [run, is_lambda, h]
  · intro h
    refine ⟨?_, ?_⟩
    · simp only [run, is_lambda, h, if_true, Bool.false_eq_true, if_false]
      cases resolved with
      | error e => simp
      | ok l => cases l <;> simp
    · intro addr rest hr
      subst hr
      refine ⟨local_diagnostics addr server_error, ?_⟩
      simp [run, is_lambda, h]

/-- Witness for C1 at concrete inputs: with the variable present `run`
selects the Lambda path; with it absent and a resolvable address, `run`
selects the local path. -/
theorem run_consults_detector_witness :
    run true [("AWS_LAMBDA_RUNTIME_API", "127.0.0.1:9001")]
        (fun r => ⟨200, [], r.body⟩) (Except.ok ["127.0.0.1:3000"]) none =
      RunOutcome.lambdaMode ∧
    run true [] (fun r => ⟨200, [], r.body⟩)
        (Except.ok ["127.0.0.1:3000"]) none ≠ RunOutcome.lambdaMode :=
  ⟨(run_consults_detector [("AWS_LAMBDA_RUNTIME_API", "127.0.0.1:9001")]
      (fun r => ⟨200, [], r.body⟩) (Except.ok ["127.0.0.1:3000"]) none).1
      (by decide),
   ((run_consults_detector [] (fun r => ⟨200, [], r.body⟩)
      (Except.ok ["127.0.0.1:3000"]) none).2 (by decide)).1⟩

/-- C2: in local-server mode the streamed request body, however it is
chunked, is buffered by `concat2` into one contiguous byte sequence, and
the handler is invoked with exactly the bytes that were sent. -/
theorem body_buffered_round_trip (handler : Handler) (parts : Parts)
    (chunks : HyperBody) (sent : Bytes) (h : concat2 chunks = sent) :
    local_service handler ⟨parts, chunks⟩ =
      Response.map hyperBody_from (handler ⟨parts, sent⟩) := by
  subst h
  rfl

/-- Witness for C2: a body sent as chunks `[1, 2]`, `[]`, `[3]` reaches the
handler as the contiguous buffer `[1, 2, 3]`. -/
theorem body_buffered_round_trip_witness :
    local_service (fun r => ⟨200, [], r.body⟩)
        ⟨⟨"POST", "/", [], ⟨none, []⟩⟩, [[1, 2], [], [3]]⟩ =
      Response.map hyperBody_from
        ((fun r => ⟨200, [], r.body⟩ : Handler)
          ⟨⟨"POST", "/", [], ⟨none, []⟩⟩, [1, 2, 3]⟩) :=
  body_buffered_round_trip (fun r => ⟨200, [], r.body⟩)
    ⟨"POST", "/", [], ⟨none, []⟩⟩ [[1, 2], [], [3]] [1, 2, 3] (by decide)

/-- C3: with the `local` feature, `is_lambda` returns true iff
`AWS_LAMBDA_RUNTIME_API` is set, regardless of the value bound to it; it is
a pure function of the environment (modelled as such, so no side effects);
and with the feature off it returns true unconditionally. -/
theorem is_lambda_iff_env_present :
    (∀ env : Env, is_lambda true env = true ↔
      (var_os env "AWS_LAMBDA_RUNTIME_API").isSome = true) ∧
    (∀ (v : String) (rest : Env),
      is_lambda true (("AWS_LAMBDA_RUNTIME_API", v) :: rest) = true) ∧
    (∀ env : Env, is_lambda false env = true) := by
  refine ⟨fun env => ?_, fun v rest => ?_, fun env => rfl⟩
  · simp [is_lambda]
  · simp [is_lambda, var_os, List.find?]

/-- Witness for C3: both directions of the iff at concrete environments,
and the feature-off case. -/
theorem is_lambda_iff_env_present_witness :
    is_lambda true [("AWS_LAMBDA_RUNTIME_API", "host:9001")] = true ∧
    is_lambda false [] = true :=
  ⟨(is_lambda_iff_env_present.1 [("AWS_LAMBDA_RUNTIME_API", "host:9001")]).mpr
      (by decide),
   is_lambda_iff_env_present.2.2 []⟩

/-- C4: when the detector reports false, `run` panics with a diagnostic if
address resolution fails or yields no addresses, and otherwise serves on
the first resolved address. -/
theorem run_resolution (env : Env) (handler : Handler)
    (resolved : Except String (List String)) (server_error : Option String)
    (h : is_lambda true env = false) :
    (∀ e, resolved = Except.error e →
      run true env handler resolved server_error =
        RunOutcome.panicked "listen_addr.to_socket_addrs() failed") ∧
    (resolved = Except.ok [] →
      run true env handler resolved server_error =
        RunOutcome.panicked
          "listen_addr.to_socket_addrs() resolved to no addresses") ∧
    (∀ addr rest, resolved = Except.ok (addr :: rest) →
      run true env handler resolved server_error =
        RunOutcome.localMode addr (local_diagnostics addr server_error)) := by
  refine ⟨fun e he => ?_, fun he => ?_, fun addr rest he => ?_⟩ <;>
    subst he <;> simp [run, h]

/-- Witness for C4: in an empty environment (detector false) a failed
resolution panics with the diagnostic from the source. -/
theorem run_resolution_witness :
    run true [] (fun r => ⟨200, [], r.body⟩) (Except.error "dns failure")
        none =
      RunOutcome.panicked "listen_addr.to_socket_addrs() failed" :=
  (run_resolution [] (fun r => ⟨200, [], r.body⟩)
    (Except.error "dns failure") none (by decide)).1 "dns failure" rfl

/-- C5: per delivered Lambda event, the adapter returns exactly one
handler application, on a request whose extensions carry the delivered
context, with method, URI, headers, other extensions and body bytes
unchanged from the event. -/
theorem lambda_attaches_context (handler : Handler)
    (request : Request LambdaBody) (context : Context) :
    lambda_handler handler request context =
      Except.ok (Response.map LambdaBody.from_vec
        (handler (lambda_visible_request request context))) ∧
    (lambda_visible_request request context).parts.extensions.context =
      some context ∧
    (lambda_visible_request request context).parts.extensions.others =
      request.parts.extensions.others ∧
    (lambda_visible_request request context).parts.method =
      request.parts.method ∧
    (lambda_visible_request request context).parts.uri = request.parts.uri ∧
    (lambda_visible_request request context).parts.headers =
      request.parts.headers ∧
    (lambda_visible_request request context).body = request.body.bytes :=
  ⟨rfl, rfl, rfl, rfl, rfl, rfl, rfl⟩

/-- C6: the Lambda adapter always returns `Ok` to the runtime client (the
handler has no error channel, and the outbound body conversion
`lambda_http::Body::from` is an infallible `From` impl, so no error path
exists to swallow). -/
theorem lambda_always_reports_success (handler : Handler)
    (request : Request LambdaBody) (context : Context) :
    (∃ resp, lambda_handler handler request context = Except.ok resp) ∧
    ∀ e, lambda_handler handler request context ≠ Except.error e :=
  ⟨⟨_, rfl⟩, fun e h => by simp [lambda_handler] at h⟩

/-- Witness for C6: at a concrete event the adapter result is not an
error. -/
theorem lambda_always_reports_success_witness :
    lambda_handler (fun r => ⟨200, [], r.body⟩)
        ⟨⟨"GET", "/", [], ⟨none, []⟩⟩, ⟨[104, 105]⟩⟩ ⟨"req-1", 30000⟩ ≠
      Except.error "conversion failed" :=
  (lambda_always_reports_success (fun r => ⟨200, [], r.body⟩)
    ⟨⟨"GET", "/", [], ⟨none, []⟩⟩, ⟨[104, 105]⟩⟩ ⟨"req-1", 30000⟩).2
    "conversion failed"

/-- C7: frame conditions of the local service: the handler sees the
original parts (method, URI, headers) with only the body replaced by the
buffered bytes, and the written response keeps the handler response's
status and headers, converting only the body into the server's outbound
body type. -/
theorem local_service_frame (handler : Handler)
    (request : Request HyperBody) :
    local_service handler request =
      Response.map hyperBody_from (handler (local_visible_request request)) ∧
    (local_visible_request request).parts = request.parts ∧
    (local_visible_request request).body = concat2 request.body ∧
    (local_service handler request).status =
      (handler (local_visible_request request)).status ∧
    (local_service handler request).headers =
      (handler (local_visible_request request)).headers ∧
    (local_service handler request).body =
      hyperBody_from (handler (local_visible_request request)).body :=
  ⟨rfl, rfl, rfl, rfl, rfl, rfl⟩

/-- C8: in local mode `run` writes the single startup line
`Listening on http://<address>` first on the diagnostic stream, and a
delegate server error is reported on that same stream. -/
theorem local_mode_diagnostics (env : Env) (handler : Handler)
    (addr : String) (rest : List String) (server_error : Option String)
    (h : is_lambda true env = false) :
    run true env handler (Except.ok (addr :: rest)) server_error =
      RunOutcome.localMode addr (local_diagnostics addr server_error) ∧
    (local_diagnostics addr server_error).head? =
      some ("Listening on http://" ++ addr) ∧
    ∀ e, server_error = some e →
      ("Hyper error: " ++ e) ∈ local_diagnostics addr server_error := by
  refine ⟨by simp [run, h], rfl, fun e he => ?_⟩
  subst he
  simp [local_diagnostics]

/-- Witness for C8: concrete local startup with a failing delegate server:
the startup line leads the stream and the error line is on it. -/
theorem local_mode_diagnostics_witness :
    run true [] (fun r => ⟨200, [], r.body⟩)
        (Except.ok ["127.0.0.1:3000"]) (some "error binding") =
      RunOutcome.localMode "127.0.0.1:3000"
        (local_diagnostics "127.0.0.1:3000" (some "error binding")) ∧
    ("Hyper error: " ++ "error binding") ∈
      local_diagnostics "127.0.0.1:3000" (some "error binding") :=
  ⟨(local_mode_diagnostics [] (fun r => ⟨200, [], r.body⟩) "127.0.0.1:3000"
      [] (some "error binding") (by decide)).1,
   (local_mode_diagnostics [] (fun r => ⟨200, [], r.body⟩) "127.0.0.1:3000"
      [] (some "error binding") (by decide)).2.2 "error binding" rfl⟩

/-- C9: with `AWS_LAMBDA_RUNTIME_API` bound to the empty string,
`is_lambda` still returns true (only presence is checked, via
`var_os(..).is_some()`), any bound value behaves like the empty one, and
`run` selects the Lambda path. -/
theorem empty_value_still_lambda :
    is_lambda true [("AWS_LAMBDA_RUNTIME_API", "")] = true ∧
    (∀ (v : String) (rest : Env),
      is_lambda true (("AWS_LAMBDA_RUNTIME_API", v) :: rest) =
        is_lambda true (("AWS_LAMBDA_RUNTIME_API", "") :: rest)) ∧
    ∀ (handler : Handler) (resolved : Except String (List String))
      (server_error : Option String),
      run true [("AWS_LAMBDA_RUNTIME_API", "")] handler resolved
        server_error = RunOutcome.lambdaMode := by
  refine ⟨by decide, fun v rest => ?_, fun handler resolved server_error => ?_⟩
  · simp [is_lambda, var_os, List.find?]
  · simp [run, is_lambda, var_os, List.find?]

/-- C10: the local service inserts nothing into the request extensions:
the handler-visible request carries exactly the extensions delivered by
the underlying server, and when the server delivered no `Context` value
the handler sees none. -/
theorem local_no_context_extension (handler : Handler)
    (request : Request HyperBody) :
    local_service handler request =
      Response.map hyperBody_from (handler (local_visible_request request)) ∧
    (local_visible_request request).parts.extensions =
      request.parts.extensions ∧
    (request.parts.extensions.context = none →
      (local_visible_request request).parts.extensions.context = none) :=
  ⟨rfl, rfl, fun h => h⟩

/-- Witness for C10: a concrete locally served request with server-provided
extensions and no context reaches the handler with those extensions and
still no context. -/
theorem local_no_context_extension_witness :
    (local_visible_request
        (⟨⟨"GET", "/", [], ⟨none, ["server-data"]⟩⟩, [[7]]⟩ :
          Request HyperBody)).parts.extensions.context = none :=
  (local_no_context_extension (fun r => ⟨200, [], r.body⟩)
    ⟨⟨"GET", "/", [], ⟨none, ["server-data"]⟩⟩, [[7]]⟩).2.2 rfl

end LambdaHttpLocal
